import Mathlib

set_option maxHeartbeats 1000000

/-
Shallow embedding of the library-and-process utilities in `src/cc/bcc_proc.c`
(functions `bcc_procutils_which`, `bcc_mapping_is_file_backed`,
`bcc_procutils_each_module`, `load_ld_cache` / `read_cache1` / `read_cache2`,
`match_so_flags`, `which_so_in_process`, `bcc_procutils_which_so`,
`bcc_procutils_enter_mountns`).

Filesystem and libc effects are made explicit:
  * `/proc/<pid>/maps` is passed in as `Option (List ...)` — `none` models a
    failed `fopen`, and each list element carries what one iteration of the
    C read loop obtains from `fscanf` + `fgets`;
  * the ld.so cache file is a raw byte list (`List Nat`, one byte per entry);
  * `stat`/`access` results and the environment are oracle parameters;
  * the mount-namespace syscalls are driven by an explicit world record.
Machine integers are modelled as `Nat`/`Int` with explicit 32/64-bit
conversions where the C code converts.
-/

/-- C `isspace`: space, `\t`, `\n`, `\v` (11), `\f` (12), `\r`. -/
def isspaceC (c : Char) : Bool :=
  c = ' ' || c = '\t' || c = '\n' || c = '\r' || c = Char.ofNat 11 || c = Char.ofNat 12

/-- Truth of `strncmp(a, b, n) == 0` for NUL-free strings: the first `n`
characters (or all of them, for shorter strings) agree. -/
def strncmp0 (a b : String) (n : Nat) : Bool :=
  a.toList.take n == b.toList.take n

/-- Occurrence test behind `strstr`, on character lists: some suffix of the
haystack starts with the needle. -/
def strstrList (needle : List Char) : List Char → Bool
  | [] => needle.isEmpty
  | c :: rest => needle.isPrefixOf (c :: rest) || strstrList needle rest

/-- Truth of `strstr(hay, needle) != NULL`. -/
def strstrB (hay needle : String) : Bool :=
  strstrList needle.toList hay.toList

/-- Truth of `strchr(s, c) != NULL`. -/
def strchrB (s : String) (c : Char) : Bool :=
  s.toList.contains c

/-- Helper for the colon-split of `PATH`: accumulate the current segment. -/
def splitSegAux (sep : Char) : List Char → List Char → List (List Char)
  | [], acc => [acc.reverse]
  | c :: cs, acc =>
      if c = sep then acc.reverse :: splitSegAux sep cs []
      else splitSegAux sep cs (c :: acc)

/-- The segments the `strchr(PATH, ':')` walk of `bcc_procutils_which`
iterates over, in order (empty segments included). -/
def splitOnChar (s : String) (sep : Char) : List String :=
  (splitSegAux sep s.toList []).map fun l => ⟨l⟩

/-- Pathname extraction applied by `bcc_proc.c` to the tail of a maps line that
`fgets` returned: chop the buffer at the first newline, then skip leading
`isspace` characters. -/
def extract_mapname (endline : String) : String :=
  ⟨(endline.toList.takeWhile (fun c => c ≠ '\n')).dropWhile isspaceC⟩

/-- `bcc_mapping_is_file_backed` from `bcc_proc.c`: the pathname must have a
nonzero first byte and `strncmp` must reject each of the six anonymous-region
patterns as a leading segment. -/
def bcc_mapping_is_file_backed (mapname : String) : Bool :=
  !mapname.toList.isEmpty &&
  !strncmp0 mapname "//anon" 6 &&
  !strncmp0 mapname "/dev/zero" 9 &&
  !strncmp0 mapname "/anon_hugepage" 14 &&
  !strncmp0 mapname "[stack" 6 &&
  !strncmp0 mapname "/SYSV" 5 &&
  !strncmp0 mapname "[heap]" 6

/-- One iteration's worth of `/proc/<pid>/maps` input in
`bcc_procutils_each_module`: either `fscanf` matched all six leading fields
(`wf`, with the remainder of the line that `fgets` then read), or it matched
only `nmatched < 6` of them. -/
inductive MapsLine where
  | wf (mbegin mend : Nat) (perm : String) (offset : Nat) (dev : String) (inode : Int)
      (rest : String)
  | malformed (nmatched : Nat) (rest : String)
deriving DecidableEq

/-- One visitor invocation of `bcc_procutils_each_module`: the pathname handed
to the callback together with the `(uint64_t)` begin/end addresses. -/
structure MEvent where
  path : String
  mstart : Nat
  mstop : Nat
deriving DecidableEq

/-- Modelled from the spec: `bcc_perf_map_path` lives in `bcc_perf_map.c`,
which is not under `src/`.  Per the spec it synthesizes "a per-pid `perf map`
path in a fixed temp-directory convention (`perf-<pid>.map`)" and the guard
around the final callback always passes. -/
def bcc_perf_map_path (pid : Nat) : String :=
  "/tmp/perf-" ++ toString pid ++ ".map"

/-- The catch-all event appended by `bcc_procutils_each_module`:
`callback(map_path, 0, -1, payload)` with `-1` read back as `uint64_t`. -/
def perfMapEvent (pid : Nat) : MEvent :=
  ⟨bcc_perf_map_path pid, 0, 2 ^ 64 - 1⟩

/-- The `do { fscanf; fgets; ... } while (ret && ret != EOF)` loop of
`bcc_procutils_each_module`, returning the list of visitor invocations.  A
fully matched line is visited when its permissions contain `x` and its
pathname is file-backed; a negative callback return breaks the loop; a line
with zero matched fields falsifies the `while (ret ...)` condition and ends
the loop; other partially matched lines fail the `ret == 6` test and are
passed over. -/
def each_module_loop (cb : MEvent → Int) : List MapsLine → List MEvent
  | [] => []
  | MapsLine.wf b e perm _ _ _ rest :: ls =>
      let mapname := extract_mapname rest
      if strchrB perm 'x' && bcc_mapping_is_file_backed mapname then
        if cb ⟨mapname, b, e⟩ < 0 then [⟨mapname, b, e⟩]
        else ⟨mapname, b, e⟩ :: each_module_loop cb ls
      else each_module_loop cb ls
  | MapsLine.malformed n _ :: ls =>
      if n = 0 then [] else each_module_loop cb ls

/-- `bcc_procutils_each_module`: `none` for `maps` models `fopen` failing
(return `-1`); otherwise the scan loop runs and, after `fclose`, the perf-map
fallback callback is issued unconditionally and its return value dropped, and
the function returns `0`. -/
def bcc_procutils_each_module (maps : Option (List MapsLine)) (pid : Nat)
    (cb : MEvent → Int) : Int × List MEvent :=
  match maps with
  | none => (-1, [])
  | some lines => (0, each_module_loop cb lines ++ [perfMapEvent pid])

/-- The `PATH` walk of `bcc_procutils_which` over the colon-separated
segments: a segment of zero length is passed over without any filesystem
test; otherwise `buffer = seg ++ "/" ++ binpath` is probed with `is_exe`
(supplied as the oracle `exe`). -/
def which_loop (exe : String → Bool) (binpath : String) : List String → Option String
  | [] => none
  | seg :: rest =>
      if seg.length = 0 then which_loop exe binpath rest
      else
        let buffer := seg ++ "/" ++ binpath
        if exe buffer then some buffer else which_loop exe binpath rest

/-- `bcc_procutils_which`.  `exe` is the `is_exe` oracle (the combined
`access(X_OK)` + `stat`/`S_ISREG` test); `pathEnv` is `getenv("PATH")`. -/
def bcc_procutils_which (binpath : String) (pathEnv : Option String)
    (exe : String → Bool) : Option String :=
  if strchrB binpath '/' then (if exe binpath then some binpath else none)
  else
    match pathEnv with
    | none => none
    | some PATH => which_loop exe binpath (splitOnChar PATH ':')

/-- Bytes of the `"ld.so-1.7.0"` legacy header (`CACHE1_HEADER`, 11 bytes). -/
def CACHE1_HEADER : List Nat := "ld.so-1.7.0".toList.map Char.toNat

/-- Bytes of the `"glibc-ld.so.cache"` header (`CACHE2_HEADER`, 17 bytes). -/
def CACHE2_HEADER : List Nat := "glibc-ld.so.cache".toList.map Char.toNat

/-- Byte read from the mapped cache file; reads past the mapping yield 0. -/
def readByte (f : List Nat) (i : Nat) : Nat := f.getD i 0

/-- Little-endian `uint32_t` read, as the struct field accesses do. -/
def readU32 (f : List Nat) (i : Nat) : Nat :=
  readByte f i + 2 ^ 8 * readByte f (i + 1) + 2 ^ 16 * readByte f (i + 2) +
    2 ^ 24 * readByte f (i + 3)

/-- The C cast `(int)` of an unsigned 32-bit value. -/
def toInt32 (n : Nat) : Int :=
  if n % 2 ^ 32 < 2 ^ 31 then ((n % 2 ^ 32 : Nat) : Int)
  else ((n % 2 ^ 32 : Nat) : Int) - 2 ^ 32

/-- Truth of `memcmp(f + off, pat, pat.length) == 0`. -/
def memcmpEq (f : List Nat) (off : Nat) (pat : List Nat) : Bool :=
  (f.drop off).take pat.length == pat

/-- Characters of a NUL-terminated C string starting at the head of `bs`. -/
def cstringAt : List Nat → List Char
  | [] => []
  | b :: bs => if b = 0 then [] else Char.ofNat b :: cstringAt bs

/-- `strdup` of the C string at byte offset `off` of the mapping. -/
def readStr (f : List Nat) (off : Nat) : String := ⟨cstringAt (f.drop off)⟩

/-- One `struct ld_lib` slot of the global `lib_cache` table. -/
structure LdLib where
  libname : String
  path : String
  flags : Nat
deriving DecidableEq

/-- `read_cache1`: layout of `struct ld_cache1` — header bytes 0..10, one
padding byte, `entry_count` at byte 12, 12-byte entries from byte 16, string
table right after the entries with `key`/`value` as offsets into it.  The C
function always returns 0, producing `(int)entry_count` and the table. -/
def read_cache1 (f : List Nat) : Int × List LdLib :=
  let ec := readU32 f 12
  let strs := 16 + 12 * ec
  (toInt32 ec,
   (List.range ec).map fun i =>
     ⟨readStr f (strs + readU32 f (16 + 12 * i + 4)),
      readStr f (strs + readU32 f (16 + 12 * i + 8)),
      readU32 f (16 + 12 * i)⟩)

/-- `read_cache2` on the mapping shifted to `base`: fails (`none`, the C
`-1`) unless the bytes at `base` carry `CACHE2_HEADER`; `entry_count` sits at
`base + 20`, the 24-byte entries start at `base + 48`, and `key`/`value` are
offsets from `base` itself. -/
def read_cache2 (f : List Nat) (base : Nat) : Option (Int × List LdLib) :=
  if memcmpEq f base CACHE2_HEADER then
    let ec := readU32 f (base + 20)
    some (toInt32 ec,
      (List.range ec).map fun i =>
        ⟨readStr f (base + readU32 f (base + 48 + 24 * i + 4)),
         readStr f (base + readU32 f (base + 48 + 24 * i + 8)),
         readU32 f (base + 48 + 24 * i)⟩)
  else none

/-- `(x + 0x7) & ~0x7ULL` on sizes. -/
def align8 (n : Nat) : Nat := (n + 7) / 8 * 8

/-- `load_ld_cache`: `none` for `file` models `open` failing; a mapping
shorter than `sizeof(struct ld_cache1) = 16` is rejected; a `CACHE1_HEADER`
prefix selects the v1 branch, whose 8-byte-aligned header+entries length
decides between an embedded v2 table and a pure v1 parse; anything else goes
to `read_cache2` at offset 0, which enforces `CACHE2_HEADER`.  `none` is the
C `-1`; `some (count, libs)` is success with `lib_cache_count = count`. -/
def load_ld_cache (file : Option (List Nat)) : Option (Int × List LdLib) :=
  match file with
  | none => none
  | some f =>
    if f.length < 16 then none
    else if memcmpEq f 0 CACHE1_HEADER then
      let c1len := align8 (16 + 12 * readU32 f 12)
      if f.length > c1len + 48 then read_cache2 f c1len
      else some (read_cache1 f)
    else read_cache2 f 0

/-- The five `ABI_*_LIB64` flag values recognized by `match_so_flags`. -/
def abi64Tags : List Nat := [0x100, 0x200, 0x300, 0x400, 0x500]

/-- `match_so_flags`, with `sizeof(void *)` made the explicit parameter
`ptrSize`: the `FLAG_TYPE_MASK` byte must be `TYPE_ELF_LIBC6 = 3`, then the
`FLAG_ABI_MASK` byte selects the required pointer width. -/
def match_so_flags (flags ptrSize : Nat) : Bool :=
  if Nat.land flags 0xff ≠ 3 then false
  else if Nat.land flags 0xff00 ∈ abi64Tags then ptrSize == 8
  else ptrSize == 4

/-- The global `lib_cache_count` / `lib_cache` pair of `bcc_proc.c`. -/
structure LdState where
  count : Int
  libs : List LdLib
deriving DecidableEq

/-- The lookup loop at the end of `bcc_procutils_which_so`: build
`soname = "lib<name>.so"`, then return the path of the first of the first
`count` cache slots whose `libname` has `soname` as its leading
`soname.length` characters and whose flags pass `match_so_flags`. -/
def cache_find (libs : List LdLib) (count : Int) (libname : String)
    (ptrSize : Nat) : Option String :=
  let soname := "lib" ++ libname ++ ".so"
  ((libs.take count.toNat).find? fun l =>
      strncmp0 l.libname soname soname.length && match_so_flags l.flags ptrSize).map
    fun l => l.path

/-- The ld-cache tier of `bcc_procutils_which_so`: a negative
`lib_cache_count` short-circuits to `NULL`; a zero count triggers
`load_ld_cache`, whose failure pins the count at `-1`; otherwise (and after a
load) the table is scanned.  The third component counts the `load_ld_cache`
invocations this call performed. -/
def cache_tier (libname : String) (st : LdState) (file : Option (List Nat))
    (ptrSize : Nat) : Option String × LdState × Nat :=
  if st.count < 0 then (none, st, 0)
  else if st.count = 0 then
    match load_ld_cache file with
    | none => (none, ⟨-1, st.libs⟩, 1)
    | some (cnt, libs) => (cache_find libs cnt libname ptrSize, ⟨cnt, libs⟩, 1)
  else (cache_find st.libs st.count libname ptrSize, st, 0)

/-- Iterated ld-cache lookups of one tracer process: run `n` successive
`cache_tier` calls from `st`, threading the global state and totalling the
number of `load_ld_cache` invocations. -/
def cache_run (libname : String) (file : Option (List Nat)) (ptrSize : Nat) :
    Nat → LdState → LdState × Nat
  | 0, st => (st, 0)
  | n + 1, st =>
      let r := cache_tier libname st file ptrSize
      let rest := cache_run libname file ptrSize n r.2.1
      (rest.1, r.2.2 + rest.2)

/-- `which_so_in_process`: walk the maps lines (each element is what `fgets`
returned after the six suppressed `fscanf` conversions), extract the
pathname, and return the first one containing `".so"` and one of
`"/lib<name>."` / `"/lib<name>-"`. -/
def which_so_in_process (libname : String) : List String → Option String
  | [] => none
  | rest :: ls =>
      let mapname := extract_mapname rest
      if strstrB mapname ".so" &&
          (strstrB mapname ("/lib" ++ libname ++ ".") ||
           strstrB mapname ("/lib" ++ libname ++ "-")) then
        some mapname
      else which_so_in_process libname ls

/-- `bcc_procutils_which_so`: a name containing `/` is duplicated verbatim; a
nonzero pid first consults `which_so_in_process` over that pid's maps
(`maps = none` models `fopen` failing there); only then does the ld-cache
tier run.  The result carries the possibly updated cache globals and the
number of `load_ld_cache` calls. -/
def bcc_procutils_which_so (libname : String) (pid : Nat)
    (maps : Option (List String)) (st : LdState) (file : Option (List Nat))
    (ptrSize : Nat) : Option String × LdState × Nat :=
  if strchrB libname '/' then (some libname, st, 0)
  else
    match (if pid ≠ 0 then maps.bind fun ls => which_so_in_process libname ls else none) with
    | some p => (some p, st, 0)
    | none => cache_tier libname st file ptrSize

/-- The `struct ns_cookie` of `bcc_proc.h`. -/
structure NsCookie where
  nsc_oldns : Int
  nsc_newns : Int
deriving DecidableEq

/-- Syscall oracle for `bcc_procutils_enter_mountns`: whether the two `open`
calls succeed, the `fstat` inode of each descriptor (`none` = `fstat`
failure), and whether `setns` would succeed. -/
structure NsWorld where
  selfOpenOk : Bool
  pidOpenOk : Bool
  selfInode : Option Nat
  pidInode : Option Nat
  setnsOk : Bool

/-- Observable outcome of `bcc_procutils_enter_mountns`: the returned bool,
the cookie contents, whether `setns` was invoked, and how many descriptors
the call opened and closed before returning. -/
structure NsOutcome where
  entered : Bool
  cookie : NsCookie
  setnsCalled : Bool
  fdsOpened : Nat
  fdsClosed : Nat
deriving DecidableEq

/-- `bcc_procutils_enter_mountns` (with a non-NULL cookie): the cookie is
first reset to `(-1, -1)`; the two `snprintf` calls fail only on a 4096-byte
result; then open old, open new, fstat both, refuse identical inodes, and
only then `setns`.  Every `goto errout` path closes whatever was opened.  On
success the two descriptors (modelled as 3 and 4) are kept in the cookie. -/
def bcc_procutils_enter_mountns (pid : Nat) (w : NsWorld) : NsOutcome :=
  if ("/proc/self/ns/mnt").length = 4096 then ⟨false, ⟨-1, -1⟩, false, 0, 0⟩
  else if ("/proc/" ++ toString pid ++ "/ns/mnt").length = 4096 then
    ⟨false, ⟨-1, -1⟩, false, 0, 0⟩
  else if !w.selfOpenOk then ⟨false, ⟨-1, -1⟩, false, 0, 0⟩
  else if !w.pidOpenOk then ⟨false, ⟨-1, -1⟩, false, 1, 1⟩
  else
    match w.selfInode with
    | none => ⟨false, ⟨-1, -1⟩, false, 2, 2⟩
    | some oi =>
      match w.pidInode with
      | none => ⟨false, ⟨-1, -1⟩, false, 2, 2⟩
      | some ni =>
        if oi = ni then ⟨false, ⟨-1, -1⟩, false, 2, 2⟩
        else if w.setnsOk then ⟨true, ⟨3, 4⟩, true, 2, 0⟩
        else ⟨false, ⟨-1, -1⟩, true, 2, 2⟩

/-- The six pathname patterns that `bcc_mapping_is_file_backed` excludes. -/
def excludedPatterns : List String :=
  ["//anon", "/dev/zero", "/anon_hugepage", "[stack", "/SYSV", "[heap]"]

/-- Spec-side events of claim C2: one event per fully parsed maps line whose
permissions contain `x` and whose pathname is file-backed, in file order. -/
def execFileBackedEvents (lines : List MapsLine) : List MEvent :=
  lines.filterMap fun l =>
    match l with
    | MapsLine.wf b e perm _ _ _ rest =>
        let m := extract_mapname rest
        if strchrB perm 'x' && bcc_mapping_is_file_backed m then some ⟨m, b, e⟩
        else none
    | MapsLine.malformed _ _ => none

/-- A maps-line record that falsifies the `while (ret && ret != EOF)` guard:
zero matched leading fields. -/
def lineAborts : MapsLine → Bool
  | MapsLine.malformed 0 _ => true
  | _ => false

/-- The `400000-410000 r-xp ... /bin/foo` mapping of the spec's scenario. -/
def demoFooLine : MapsLine :=
  MapsLine.wf 0x400000 0x410000 "r-xp" 0 "08:01" 42 "   /bin/foo\n"

/-- The executable anonymous `[heap]` mapping of the spec's scenario. -/
def demoHeapLine : MapsLine :=
  MapsLine.wf 0x7f0000 0x7f1000 "rwxp" 0 "00:00" 0 "   [heap]\n"

/-- Maps content of the spec scenario: one real module plus the heap. -/
def demoScenarioLines : List MapsLine := [demoFooLine, demoHeapLine]

/-- A maps file whose first line matches zero leading fields, followed by a
perfectly good executable file-backed mapping. -/
def demoMalformedLines : List MapsLine :=
  [MapsLine.malformed 0 "garbage\n", demoFooLine]

/-- Helper: the first `p.length` elements of `m` equal `p` exactly when `p`
is a leading segment of `m`. -/
theorem take_eq_iff_leading (p m : List Char) : m.take p.length = p ↔ p <+: m := by
  constructor
  · intro h
    refine ⟨m.drop p.length, ?_⟩
    conv_rhs => rw [← List.take_append_drop p.length m]
    rw [h]
  · rintro ⟨t, rfl⟩
    simp

/-- Helper: `strncmp(m, p, strlen(p)) == 0` is exactly the leading-segment
test against `p`. -/
theorem strncmp0_pattern_iff (m p : String) (n : Nat) (hn : p.toList.length = n) :
    strncmp0 m p n = true ↔ p.toList <+: m.toList := by
  subst hn
  unfold strncmp0
  rw [List.take_length, beq_iff_eq, take_eq_iff_leading]

/-- Helper: a false `strncmp` result refutes the leading-segment relation. -/
theorem strncmp0_false_not_leading (m p : String) (n : Nat) (hn : p.toList.length = n)
    (h : strncmp0 m p n = false) : ¬ (p.toList <+: m.toList) := by
  rw [← strncmp0_pattern_iff m p n hn]
  simp [h]

/-- C3 (amended): a pathname is classified file-backed exactly when it is
nonempty and begins with none of the six excluded patterns.  The claim's
"an empty pathname counts as file-backed" is dropped: `mapname[0]` must be a
nonzero byte. -/
theorem file_backed_characterization :
    ∀ m : String, bcc_mapping_is_file_backed m = true ↔
      (m.toList ≠ [] ∧ ∀ p ∈ excludedPatterns, ¬ (p.toList <+: m.toList)) := by
  intro m
  unfold bcc_mapping_is_file_backed
  simp only [Bool.and_eq_true, Bool.not_eq_true']
  constructor
  · rintro ⟨⟨⟨⟨⟨⟨h0, h1⟩, h2⟩, h3⟩, h4⟩, h5⟩, h6⟩
    refine ⟨by simpa [List.isEmpty_iff] using h0, ?_⟩
    intro p hp
    simp only [excludedPatterns, List.mem_cons, List.not_mem_nil, or_false] at hp
    rcases hp with rfl | rfl | rfl | rfl | rfl | rfl
    · exact strncmp0_false_not_leading m "//anon" 6 (by decide) h1
    · exact strncmp0_false_not_leading m "/dev/zero" 9 (by decide) h2
    · exact strncmp0_false_not_leading m "/anon_hugepage" 14 (by decide) h3
    · exact strncmp0_false_not_leading m "[stack" 6 (by decide) h4
    · exact strncmp0_false_not_leading m "/SYSV" 5 (by decide) h5
    · exact strncmp0_false_not_leading m "[heap]" 6 (by decide) h6
  · rintro ⟨h0, hps⟩
    have hx : ∀ p ∈ excludedPatterns, ∀ n, p.toList.length = n →
        strncmp0 m p n = false := by
      intro p hp n hn
      have := hps p hp
      rw [← strncmp0_pattern_iff m p n hn] at this
      simpa using this
    refine ⟨⟨⟨⟨⟨⟨?_, ?_⟩, ?_⟩, ?_⟩, ?_⟩, ?_⟩, ?_⟩
    · simpa [List.isEmpty_iff] using h0
    · exact hx "//anon" (by decide) 6 (by decide)
    · exact hx "/dev/zero" (by decide) 9 (by decide)
    · exact hx "/anon_hugepage" (by decide) 14 (by decide)
    · exact hx "[stack" (by decide) 6 (by decide)
    · exact hx "/SYSV" (by decide) 5 (by decide)
    · exact hx "[heap]" (by decide) 6 (by decide)

/-- C3 (counterexample): an empty pathname begins with none of the six
excluded patterns, yet `bcc_mapping_is_file_backed` rejects it because of the
`mapname[0]` test — refuting the claimed "exactly when" (and its "empty
counts as file-backed" consequence) at `mapname = ""`. -/
theorem file_backed_empty_cex :
    ¬ (bcc_mapping_is_file_backed "" = true ↔
        ∀ p ∈ excludedPatterns, ¬ (p.toList <+: ("" : String).toList)) := by
  intro h
  have hr : ∀ p ∈ excludedPatterns, ¬ (p.toList <+: ("" : String).toList) := by
    intro p hp hpre
    have hlen := hpre.length_le
    have hp0 : p = "" := by
      cases p with
      | mk data =>
        cases data with
        | nil => rfl
        | cons c cs => simp [String.toList] at hlen
    subst hp0
    exact absurd hp (by decide)
  exact absurd (h.mpr hr) (by decide)

/-- C9 (amended): inside `bcc_procutils_each_module`, a maps line whose
leading fields only partially match (between one and five fields) is skipped
and the scan continues with the later lines; but a line matching none of the
fields ends the scan — the remaining lines are not visited — while the call
itself still succeeds and still issues the perf-map fallback. -/
theorem each_module_malformed_line :
    ∀ (n : Nat) (s : String) (ls : List MapsLine) (pid : Nat) (cb : MEvent → Int),
      bcc_procutils_each_module (some (MapsLine.malformed n s :: ls)) pid cb =
        if n = 0 then (0, [perfMapEvent pid])
        else bcc_procutils_each_module (some ls) pid cb := by
  intro n s ls pid cb
  by_cases h : n = 0 <;> simp [bcc_procutils_each_module, each_module_loop, h]

/-- C9 (counterexample): with a first line matching zero leading fields, the
perfectly well-formed executable file-backed `/bin/foo` line after it is
never visited — the malformed line is not "skipped locally", it ends the
scan. -/
theorem each_module_malformed_cex :
    bcc_procutils_each_module (some demoMalformedLines) 5 (fun _ => 0) =
      (0, [perfMapEvent 5]) ∧
    MEvent.mk "/bin/foo" 0x400000 0x410000 ∉
      (bcc_procutils_each_module (some demoMalformedLines) 5 (fun _ => 0)).2 := by
  constructor
  · rfl
  · decide

/-- C10: whenever `/proc/<pid>/maps` opens, `bcc_procutils_each_module`
returns 0 — for every callback, however many lines parse and whatever the
callback returns anywhere, including on the final perf-map invocation, whose
return value is discarded; the only `-1` is a failed open. -/
theorem each_module_return_code :
    (∀ (lines : List MapsLine) (pid : Nat) (cb : MEvent → Int),
        (bcc_procutils_each_module (some lines) pid cb).1 = 0) ∧
    (∀ (pid : Nat) (cb : MEvent → Int),
        bcc_procutils_each_module none pid cb = (-1, [])) :=
  ⟨fun _ _ _ => rfl, fun _ _ => rfl⟩

/-- Helper: under no zero-field line and a visitor that never asks to stop,
the scan loop visits exactly the executable file-backed lines in file order. -/
theorem each_module_loop_eq (cb : MEvent → Int) :
    ∀ lines : List MapsLine,
      (∀ l ∈ lines, lineAborts l = false) →
      (∀ e ∈ execFileBackedEvents lines, 0 ≤ cb e) →
      each_module_loop cb lines = execFileBackedEvents lines := by
  intro lines
  induction lines with
  | nil => intro _ _; rfl
  | cons l ls ih =>
    intro hab hcb
    have hab' : ∀ x ∈ ls, lineAborts x = false := fun x hx =>
      hab x (List.mem_cons_of_mem _ hx)
    cases l with
    | wf b e perm off dev inode rest =>
      by_cases hq :
          (strchrB perm 'x' && bcc_mapping_is_file_backed (extract_mapname rest)) = true
      · obtain ⟨hq1, hq2⟩ : strchrB perm 'x' = true ∧
            bcc_mapping_is_file_backed (extract_mapname rest) = true := by
          simpa [Bool.and_eq_true] using hq
        have hev : execFileBackedEvents (MapsLine.wf b e perm off dev inode rest :: ls) =
            ⟨extract_mapname rest, b, e⟩ :: execFileBackedEvents ls := by
          simp [execFileBackedEvents, List.filterMap_cons, hq1, hq2]
        have hcb' : ∀ x ∈ execFileBackedEvents ls, 0 ≤ cb x := fun x hx =>
          hcb x (by rw [hev]; exact List.mem_cons_of_mem _ hx)
        have hhead : 0 ≤ cb ⟨extract_mapname rest, b, e⟩ :=
          hcb _ (by rw [hev]; exact List.mem_cons_self _ _)
        rw [hev]
        show each_module_loop cb (MapsLine.wf b e perm off dev inode rest :: ls) =
          ⟨extract_mapname rest, b, e⟩ :: execFileBackedEvents ls
        simp only [each_module_loop]
        rw [if_pos hq, if_neg (not_lt.mpr hhead), ih hab' hcb']
      · have hqn : ¬ (strchrB perm 'x' = true ∧
            bcc_mapping_is_file_backed (extract_mapname rest) = true) := by
          simpa [Bool.and_eq_true] using hq
        have hev : execFileBackedEvents (MapsLine.wf b e perm off dev inode rest :: ls) =
            execFileBackedEvents ls := by
          simp only [execFileBackedEvents, List.filterMap_cons]
          rw [if_neg (by simpa [Bool.and_eq_true] using hq)]
        rw [hev]
        show each_module_loop cb (MapsLine.wf b e perm off dev inode rest :: ls) =
          execFileBackedEvents ls
        simp only [each_module_loop]
        rw [if_neg hq]
        exact ih hab' (by rw [← hev]; exact hcb)
    | malformed n rest =>
      cases n with
      | zero => exact absurd (hab _ (List.mem_cons_self _ _)) (by simp [lineAborts])
      | succ k =>
        have hev : execFileBackedEvents (MapsLine.malformed (k + 1) rest :: ls) =
            execFileBackedEvents ls := by
          simp [execFileBackedEvents, List.filterMap_cons]
        rw [hev]
        simp only [each_module_loop, Nat.succ_ne_zero, if_false]
        exact ih hab' (by rw [← hev]; exact hcb)

/-- C2 (amended): for a maps file whose every line matches at least one
leading field, the callback is invoked exactly once per fully parsed line
whose permissions contain `x` and whose pathname is file-backed, in file
order (when the callback never stops the scan), and — regardless of whether
the callback stopped the scan early by returning a negative value — the
callback is always additionally invoked one final time with the pid's
perf-map path and the sentinel range `(0, 2^64 - 1)`.  The original claim's
"except when the callback stopped the scan early" exception is reversed: the
final perf-map invocation is unconditional. -/
theorem each_module_visits (lines : List MapsLine) (pid : Nat) (cb : MEvent → Int)
    (hab : ∀ l ∈ lines, lineAborts l = false) :
    ((∀ e ∈ execFileBackedEvents lines, 0 ≤ cb e) →
      bcc_procutils_each_module (some lines) pid cb =
        (0, execFileBackedEvents lines ++ [perfMapEvent pid])) ∧
    (bcc_procutils_each_module (some lines) pid cb).2.getLast? =
      some (perfMapEvent pid) := by
  constructor
  · intro hcb
    simp [bcc_procutils_each_module, each_module_loop_eq cb lines hab hcb]
  · simp [bcc_procutils_each_module]

/-- C2 (witness): the spec's scenario instantiates the amended claim —
`/bin/foo` is visited once, the executable `[heap]` mapping never, and the
perf-map event closes the trace. -/
theorem each_module_visits_witness :
    (∀ l ∈ demoScenarioLines, lineAborts l = false) ∧
    (((∀ e ∈ execFileBackedEvents demoScenarioLines, 0 ≤ (fun _ => (0 : Int)) e) →
        bcc_procutils_each_module (some demoScenarioLines) 7 (fun _ => (0 : Int)) =
          (0, execFileBackedEvents demoScenarioLines ++ [perfMapEvent 7])) ∧
      (bcc_procutils_each_module (some demoScenarioLines) 7 (fun _ => (0 : Int))).2.getLast? =
        some (perfMapEvent 7)) :=
  ⟨by decide, each_module_visits demoScenarioLines 7 (fun _ => (0 : Int)) (by decide)⟩

/-- C2 (counterexample): one qualifying line, a visitor that immediately
stops the scan by returning `-1`: the perf-map fallback is STILL invoked —
the call after the broken loop is unconditional — so the trace is
`[/bin/foo, perf-map]`, not the claim's `[/bin/foo]`. -/
theorem each_module_earlystop_cex :
    bcc_procutils_each_module (some [demoFooLine]) 42 (fun _ => -1) =
      (0, [⟨"/bin/foo", 0x400000, 0x410000⟩, perfMapEvent 42]) ∧
    (bcc_procutils_each_module (some [demoFooLine]) 42 (fun _ => -1)).2 ≠
      [⟨"/bin/foo", 0x400000, 0x410000⟩] := by
  constructor
  · rfl
  · decide

/-- Spec-side tier 2 of claim C1: the first maps pathname that contains
`".so"` and contains `"/lib<name>."` or `"/lib<name>-"`. -/
def mapsFirstSoHit (libname : String) (lines : List String) : Option String :=
  (lines.map extract_mapname).find? fun m =>
    strstrB m ".so" &&
      (strstrB m ("/lib" ++ libname ++ ".") || strstrB m ("/lib" ++ libname ++ "-"))

/-- Helper: the `which_so_in_process` loop returns exactly the first matching
pathname. -/
theorem which_so_in_process_eq (libname : String) :
    ∀ lines : List String,
      which_so_in_process libname lines = mapsFirstSoHit libname lines := by
  intro lines
  induction lines with
  | nil => rfl
  | cons rest ls ih =>
    by_cases h :
        (strstrB (extract_mapname rest) ".so" &&
          (strstrB (extract_mapname rest) ("/lib" ++ libname ++ ".") ||
           strstrB (extract_mapname rest) ("/lib" ++ libname ++ "-"))) = true
    · simp [which_so_in_process, mapsFirstSoHit, List.find?_cons, h]
    · simp only [which_so_in_process, mapsFirstSoHit, List.map_cons, List.find?_cons]
      rw [if_neg (by simpa using h)]
      have h' : (strstrB (extract_mapname rest) ".so" &&
          (strstrB (extract_mapname rest) ("/lib" ++ libname ++ ".") ||
           strstrB (extract_mapname rest) ("/lib" ++ libname ++ "-"))) = false := by
        simpa using h
      rw [h']
      simpa [mapsFirstSoHit] using ih

/-- C1: `bcc_procutils_which_so` follows the strict three-tier priority: a
name containing `/` is returned verbatim (no state change, no cache load);
otherwise, with a nonzero pid and an openable maps file, the first maps
pathname containing `".so"` and `"/lib<name>."` or `"/lib<name>-"` is
returned when one exists; only otherwise does the ld.so-cache tier run. -/
theorem which_so_three_tier :
    ∀ (libname : String) (pid : Nat) (maps : Option (List String)) (st : LdState)
      (file : Option (List Nat)) (ptrSize : Nat),
      bcc_procutils_which_so libname pid maps st file ptrSize =
        if strchrB libname '/' then (some libname, st, 0)
        else
          match (if pid ≠ 0 then maps.bind fun ls => mapsFirstSoHit libname ls
                 else none) with
          | some p => (some p, st, 0)
          | none => cache_tier libname st file ptrSize := by
  intro libname pid maps st file ptrSize
  unfold bcc_procutils_which_so
  have hb : (maps.bind fun ls => which_so_in_process libname ls) =
      (maps.bind fun ls => mapsFirstSoHit libname ls) := by
    cases maps <;> simp [which_so_in_process_eq]
  by_cases h : strchrB libname '/' = true <;> by_cases hp : pid ≠ 0 <;> simp [h, hp, hb]

/-- Helper: the `PATH` walk returns the first executable join over the
nonempty segments. -/
theorem which_loop_eq (exe : String → Bool) (binpath : String) :
    ∀ segs : List String,
      which_loop exe binpath segs =
        ((segs.filter fun s => s.length != 0).map fun s => s ++ "/" ++ binpath).find?
          exe := by
  intro segs
  induction segs with
  | nil => rfl
  | cons seg rest ih =>
    by_cases hs : seg.length = 0
    · have hf : (seg.length != 0) = false := by simp [hs]
      simp only [which_loop, List.filter_cons, hf]
      rw [if_pos hs]
      simpa using ih
    · have ht : (seg.length != 0) = true := by simpa using hs
      simp only [which_loop, List.filter_cons, ht, if_true, List.map_cons, List.find?_cons]
      rw [if_neg hs]
      by_cases he : exe (seg ++ "/" ++ binpath) = true
      · simp [he]
      · have hf : exe (seg ++ "/" ++ binpath) = false := by simpa using he
        simp [hf, ih]

/-- C8 (amended): a name containing `/` is returned exactly when it passes
the executable-regular-file test; otherwise the colon-delimited `PATH`
segments are scanned in order with empty segments SKIPPED (they are not
treated as the current directory), returning the first `seg/name` join the
`is_exe` oracle accepts; no match, or an unset `PATH`, gives the empty
result. -/
theorem which_characterization :
    ∀ (binpath : String) (pathEnv : Option String) (exe : String → Bool),
      bcc_procutils_which binpath pathEnv exe =
        if strchrB binpath '/' then (if exe binpath then some binpath else none)
        else
          match pathEnv with
          | none => none
          | some PATH =>
              (((splitOnChar PATH ':').filter fun s => s.length != 0).map
                  fun s => s ++ "/" ++ binpath).find? exe := by
  intro binpath env exe
  unfold bcc_procutils_which
  by_cases h : strchrB binpath '/' = true <;> cases env <;> simp [h, which_loop_eq]

/-- Spec-side model of claim C8's `PATH` scan, which reads empty segments as
the current directory: every segment is probed, an empty one as `"."`. -/
def whichClaimC8 (binpath PATH : String) (exe : String → Bool) : Option String :=
  ((splitOnChar PATH ':').map
      fun s => (if s.length = 0 then "." else s) ++ "/" ++ binpath).find? exe

/-- C8 (counterexample): with `PATH = ":"` (two empty segments) and an oracle
accepting every path, the claim's empty-segment-as-current-directory reading
yields `"./foo"`, but `bcc_procutils_which` probes nothing and returns the
empty result — the `if (path_len)` guard skips empty segments entirely. -/
theorem which_empty_segment_cex :
    bcc_procutils_which "foo" (some ":") (fun _ => true) = none ∧
    whichClaimC8 "foo" ":" (fun _ => true) = some "./foo" :=
  ⟨rfl, rfl⟩

/-- C7: when the target pid's mount-namespace inode equals the caller's own,
`bcc_procutils_enter_mountns` never invokes `setns`, returns without an
entered handle (result `false`, the benign nothing-to-do outcome whose
callers simply proceed), leaves the cookie at `(-1, -1)`, and closes both
descriptors it had opened — nothing leaks. -/
theorem enter_mountns_same_inode :
    ∀ (pid : Nat) (w : NsWorld) (i : Nat),
      ("/proc/" ++ toString pid ++ "/ns/mnt").length ≠ 4096 →
      w.selfOpenOk = true → w.pidOpenOk = true →
      w.selfInode = some i → w.pidInode = some i →
      bcc_procutils_enter_mountns pid w = ⟨false, ⟨-1, -1⟩, false, 2, 2⟩ := by
  intro pid w i hlen hso hpo hsi hpi
  unfold bcc_procutils_enter_mountns
  rw [if_neg (by decide : ¬ ("/proc/self/ns/mnt").length = 4096), if_neg hlen]
  rw [hso, hpo, hsi, hpi]
  simp

/-- C7 (witness): a concrete world whose two namespace files share inode 5. -/
theorem enter_mountns_same_inode_witness :
    ("/proc/" ++ toString 9 ++ "/ns/mnt").length ≠ 4096 ∧
    bcc_procutils_enter_mountns 9 ⟨true, true, some 5, some 5, true⟩ =
      ⟨false, ⟨-1, -1⟩, false, 2, 2⟩ :=
  ⟨by decide,
   enter_mountns_same_inode 9 ⟨true, true, some 5, some 5, true⟩ 5 (by decide)
     rfl rfl rfl rfl⟩

/-- Little-endian byte encoding of a `uint32_t`, for building cache files. -/
def u32bytes (n : Nat) : List Nat :=
  [n % 256, n / 2 ^ 8 % 256, n / 2 ^ 16 % 256, n / 2 ^ 24 % 256]

/-- NUL-terminated string bytes, for building cache string tables. -/
def strBytes (s : String) : List Nat := s.toList.map Char.toNat ++ [0]

/-- The spec scenario's v1 ld cache: one entry `libssl.so.1.1 →
/usr/lib/libssl.so.1.1` with flags `0x0303` (x86-64 LIB64 | ELF libc6).
Layout: 11 header bytes, 1 padding byte, `entry_count = 1` at byte 12, one
12-byte entry at byte 16 (`flags`, `key = 0`, `value = 14`), string table at
byte 28.  Total 65 bytes, so no embedded v2 table (65 ≤ align8(28) + 48). -/
def demoV1Cache : List Nat :=
  CACHE1_HEADER ++ [0] ++ u32bytes 1 ++
    (u32bytes 0x303 ++ u32bytes 0 ++ u32bytes 14) ++
    strBytes "libssl.so.1.1" ++ strBytes "/usr/lib/libssl.so.1.1"

/-- A structurally valid v2 cache with zero entries: 17 header bytes,
version `"1.1"`, `entry_count = 0`, `string_table_len = 0`, five pad words —
exactly the 48-byte `struct ld_cache2`. -/
def emptyV2Cache : List Nat :=
  CACHE2_HEADER ++ ("1.1".toList.map Char.toNat) ++ List.replicate 28 0

/-- C4: `load_ld_cache` format detection on any mapping that passes the
minimum-size check (`st_size ≥ sizeof(struct ld_cache1) = 16`): a
`"ld.so-1.7.0"` leading header selects the v1 branch, which parses an
embedded v2 table at the 8-byte-aligned end of the v1 header+entries when
the file extends strictly beyond that offset plus a v2 header, and otherwise
parses pure v1; a `"glibc-ld.so.cache"` leading header parses v2 from offset
0 (and succeeds); any other leading bytes produce the failure result. -/
theorem ld_cache_format_detection :
    ∀ f : List Nat, 16 ≤ f.length →
      ((f.take 11 = CACHE1_HEADER →
          load_ld_cache (some f) =
            (if f.length > align8 (16 + 12 * readU32 f 12) + 48 then
              read_cache2 f (align8 (16 + 12 * readU32 f 12))
            else some (read_cache1 f))) ∧
       (f.take 17 = CACHE2_HEADER →
          load_ld_cache (some f) = read_cache2 f 0 ∧
            (load_ld_cache (some f)).isSome = true) ∧
       (f.take 11 ≠ CACHE1_HEADER → f.take 17 ≠ CACHE2_HEADER →
          load_ld_cache (some f) = none)) := by
  intro f hlen
  have hnl : ¬ f.length < 16 := by omega
  have hL1 : CACHE1_HEADER.length = 11 := by decide
  have hL2 : CACHE2_HEADER.length = 17 := by decide
  refine ⟨?_, ?_, ?_⟩
  · intro h1
    have hm : memcmpEq f 0 CACHE1_HEADER = true := by
      simp [memcmpEq, hL1, h1]
    simp only [load_ld_cache]
    rw [if_neg hnl, if_pos hm]
  · intro h2
    have ht : f.take 11 = CACHE2_HEADER.take 11 := by
      rw [← h2, List.take_take]
      norm_num
    have hm1 : memcmpEq f 0 CACHE1_HEADER = false := by
      simp only [memcmpEq, List.drop_zero, hL1, ht]
      decide
    have hm2 : memcmpEq f 0 CACHE2_HEADER = true := by
      simp [memcmpEq, hL2, h2]
    constructor
    · simp only [load_ld_cache]
      rw [if_neg hnl, if_neg (by simp [hm1])]
    · simp only [load_ld_cache, read_cache2]
      rw [if_neg hnl, if_neg (by simp [hm1]), if_pos hm2]
      rfl
  · intro h1 h2
    have hm1 : memcmpEq f 0 CACHE1_HEADER = false := by
      simp only [memcmpEq, List.drop_zero, hL1]
      simpa using h1
    have hm2 : memcmpEq f 0 CACHE2_HEADER = false := by
      simp only [memcmpEq, List.drop_zero, hL2]
      simpa using h2
    simp only [load_ld_cache, read_cache2]
    rw [if_neg hnl, if_neg (by simp [hm1]), if_neg (by simp [hm2])]

/-- C4 (witness): the one-entry v1 demo cache is large enough and, having no
embedded v2 table (65 ≤ 32 + 48), parses as pure v1. -/
theorem ld_cache_format_detection_witness :
    16 ≤ demoV1Cache.length ∧
    ((demoV1Cache.take 11 = CACHE1_HEADER →
        load_ld_cache (some demoV1Cache) =
          (if demoV1Cache.length > align8 (16 + 12 * readU32 demoV1Cache 12) + 48 then
            read_cache2 demoV1Cache (align8 (16 + 12 * readU32 demoV1Cache 12))
          else some (read_cache1 demoV1Cache))) ∧
     (demoV1Cache.take 17 = CACHE2_HEADER →
        load_ld_cache (some demoV1Cache) = read_cache2 demoV1Cache 0 ∧
          (load_ld_cache (some demoV1Cache)).isSome = true) ∧
     (demoV1Cache.take 11 ≠ CACHE1_HEADER → demoV1Cache.take 17 ≠ CACHE2_HEADER →
        load_ld_cache (some demoV1Cache) = none)) :=
  ⟨by decide, ld_cache_format_detection demoV1Cache (by decide)⟩

/-- C5: an ld-cache entry passes the ABI filter iff the low flag byte is the
ELF-libc6 type 3 and the ABI byte demands pointer width 8 for the five
recognized 64-bit tags and width 4 for anything else; consequently, on the
spec's scenario cache (one 64-bit-tagged `libssl` entry), `which_so("ssl")`
resolves the path on a 64-bit resolver and finds no match on a 32-bit one. -/
theorem so_flags_abi_filter :
    (∀ flags ptrSize : Nat,
        match_so_flags flags ptrSize = true ↔
          (Nat.land flags 0xff = 3 ∧
           (Nat.land flags 0xff00 ∈ abi64Tags → ptrSize = 8) ∧
           (Nat.land flags 0xff00 ∉ abi64Tags → ptrSize = 4))) ∧
    (bcc_procutils_which_so "ssl" 0 none ⟨0, []⟩ (some demoV1Cache) 8).1 =
      some "/usr/lib/libssl.so.1.1" ∧
    (bcc_procutils_which_so "ssl" 0 none ⟨0, []⟩ (some demoV1Cache) 4).1 = none := by
  refine ⟨?_, rfl, rfl⟩
  intro flags ptrSize
  unfold match_so_flags
  by_cases h3 : Nat.land flags 0xff = 3
  · rw [if_neg (not_not_intro h3)]
    by_cases habi : Nat.land flags 0xff00 ∈ abi64Tags
    · rw [if_pos habi]
      simp [h3, habi]
    · rw [if_neg habi]
      simp [h3, habi]
  · rw [if_pos h3]
    simp [h3]

/-- C6 (counterexample): a structurally valid v2 cache with zero entries
loads successfully, but leaves `lib_cache_count` at 0 — indistinguishable
from never-loaded — so over two lookups the tracer performs two
`load_ld_cache` calls, refuting "loaded at most once per tracer process
lifetime" and "after a successful load every later cache lookup reuses the
in-memory table without reloading". -/
theorem ld_cache_reload_cex :
    cache_tier "ssl" ⟨0, []⟩ (some emptyV2Cache) 8 = (none, ⟨0, []⟩, 1) ∧
    (cache_run "ssl" (some emptyV2Cache) 8 2 ⟨0, []⟩).2 = 2 :=
  ⟨rfl, rfl⟩

/-- C6 (amended): once `lib_cache_count` is nonzero — a load that found at
least one entry (count > 0) or a failed load (count pinned to -1) — the
cache tier of `bcc_procutils_which_so` never invokes `load_ld_cache` again
for the rest of the run and leaves the globals untouched, returning no
result in the failed state and a plain in-memory lookup otherwise; only the
count-zero state (never loaded, or a load that found an empty cache)
triggers a(nother) load. -/
theorem ld_cache_no_reload (libname : String) (st : LdState)
    (file : Option (List Nat)) (ptrSize : Nat) (h : st.count ≠ 0) :
    cache_tier libname st file ptrSize =
      ((if st.count < 0 then none else cache_find st.libs st.count libname ptrSize),
        st, 0) := by
  unfold cache_tier
  by_cases hneg : st.count < 0
  · rw [if_pos hneg, if_pos hneg]
  · rw [if_neg hneg, if_neg h, if_neg hneg]

/-- C6 (witness): the permanently failed state (count -1) yields no result,
no reload, and an unchanged state. -/
theorem ld_cache_no_reload_witness :
    (LdState.count ⟨-1, []⟩ ≠ 0) ∧
    cache_tier "c" ⟨-1, []⟩ none 8 =
      ((if LdState.count (⟨-1, []⟩ : LdState) < 0 then none
        else cache_find [] (-1) "c" 8), (⟨-1, []⟩ : LdState), 0) :=
  ⟨by decide, ld_cache_no_reload "c" ⟨-1, []⟩ none 8 (by decide)⟩
